import Mathlib

/-!
Shallow embedding of the `contracts` module of the cw-multi-test fork:
the type-customization layer (`context.rs`), the entry-point binding and
casting layer (`entry_points.rs`), and the contract facade
(`contract_wrapper.rs`).  External `cosmwasm_std` data types are modelled
as concrete Lean structures; payload types that the code under review
only moves around wholesale (`WasmMsg`, `BankMsg`, ...) are represented
by an abstract single-field payload.  Rust panics (`unreachable!`,
`panic!`) are modelled as a distinguished, non-recoverable error
constructor that every layer propagates unchanged, while recoverable
`anyhow` errors are modelled as a string-carrying constructor.
-/

namespace CwMt

/-- Byte payload (`cosmwasm_std::Binary` / `Vec<u8>`), modelled as a list of bytes. -/
abbrev Binary := List Nat

/-- The baseline extension type `cosmwasm_std::Empty`: an empty struct.
It is inhabited (its unique value serializes as the empty JSON object);
it is not an uninhabited type. -/
structure Empty where
deriving DecidableEq, Repr

/-- A coin amount, as in `cosmwasm_std::Coin`. -/
structure Coin where
  denom : String
  amount : Nat
deriving DecidableEq, Repr

/-- Opaque payload of the `CosmosMsg::Wasm` variant (`cosmwasm_std::WasmMsg`);
the code under review never inspects it, so it is abstracted to one field. -/
structure WasmMsg where
  payload : String
deriving DecidableEq, Repr

/-- Opaque payload of the `CosmosMsg::Bank` variant (`cosmwasm_std::BankMsg`). -/
structure BankMsg where
  payload : String
deriving DecidableEq, Repr

/-- Opaque payload of the `CosmosMsg::Staking` variant (`cosmwasm_std::StakingMsg`). -/
structure StakingMsg where
  payload : String
deriving DecidableEq, Repr

/-- Opaque payload of the `CosmosMsg::Distribution` variant (`cosmwasm_std::DistributionMsg`). -/
structure DistributionMsg where
  payload : String
deriving DecidableEq, Repr

/-- Opaque payload of the `CosmosMsg::Ibc` variant (`cosmwasm_std::IbcMsg`, `stargate` feature). -/
structure IbcMsg where
  payload : String
deriving DecidableEq, Repr

/-- Stand-in for a variant of the non-exhaustive `CosmosMsg` union outside the
set handled by `CustomizeMsg::customize` (for example `CosmosMsg::Gov`); such a
variant is matched only by the wildcard arm of the conversion. -/
structure GovMsg where
  payload : String
deriving DecidableEq, Repr

/-- The outbound-message tagged union `cosmwasm_std::CosmosMsg<C>`:
contract call (`Wasm`), funds transfer (`Bank`), staking and distribution
operations, the extension-custom variant `Custom C`, the cross-chain
variants `Ibc` and `Stargate` (enabled by the `stargate` feature), and
`Gov` standing for the unrecognized remainder of the non-exhaustive union. -/
inductive CosmosMsg (C : Type) where
  | Wasm (w : WasmMsg)
  | Bank (b : BankMsg)
  | Staking (s : StakingMsg)
  | Distribution (d : DistributionMsg)
  | Custom (c : C)
  | Ibc (i : IbcMsg)
  | Stargate (type_url : String) (value : Binary)
  | Gov (g : GovMsg)
deriving DecidableEq, Repr

/-- Reply policy of a sub-message (`cosmwasm_std::ReplyOn`). -/
inductive ReplyOn where
  | Always
  | Error
  | Success
  | Never
deriving DecidableEq, Repr

/-- Sub-message envelope `cosmwasm_std::SubMsg<C>`: an outbound message plus
a correlation identifier, an optional gas ceiling and a reply policy. -/
structure SubMsg (C : Type) where
  msg : CosmosMsg C
  id : Nat
  gas_limit : Option Nat
  reply_on : ReplyOn
deriving DecidableEq, Repr

/-- A key/value attribute (`cosmwasm_std::Attribute`). -/
structure Attribute where
  key : String
  value : String
deriving DecidableEq, Repr

/-- An emitted event (`cosmwasm_std::Event`). -/
structure Event where
  ty : String
  attributes : List Attribute
deriving DecidableEq, Repr

/-- The response of an entry point, `cosmwasm_std::Response<C>`. -/
structure Response (C : Type) where
  messages : List (SubMsg C)
  attributes : List Attribute
  events : List Event
  data : Option Binary
deriving DecidableEq, Repr

/-- Constructor `Response::new()`: all fields empty. -/
def Response.new {C : Type} : Response C :=
  { messages := [], attributes := [], events := [], data := none }

/-- Builder `Response::add_submessages`: appends the given envelopes. -/
def Response.add_submessages {C : Type} (r : Response C) (msgs : List (SubMsg C)) :
    Response C :=
  { r with messages := r.messages ++ msgs }

/-- Builder `Response::add_events`: appends the given events. -/
def Response.add_events {C : Type} (r : Response C) (evs : List Event) : Response C :=
  { r with events := r.events ++ evs }

/-- Builder `Response::add_attributes`: appends the given attributes. -/
def Response.add_attributes {C : Type} (r : Response C) (attrs : List Attribute) :
    Response C :=
  { r with attributes := r.attributes ++ attrs }

/-- Builder `Response::add_attribute`: appends one attribute. -/
def Response.add_attribute {C : Type} (r : Response C) (a : Attribute) : Response C :=
  { r with attributes := r.attributes ++ [a] }

/-- A Rust panic raised by `CustomizeMsg::customize` in `context.rs`: either the
`unreachable!()` arm for the extension-custom variant, or the
`panic!("unknown message variant {:?}", self)` wildcard arm. -/
inductive CustomizePanic where
  | unreachableCustom
  | unknownVariant (g : GovMsg)
deriving DecidableEq, Repr

/-- The message a `CustomizePanic` is rendered with: `unreachable!()` produces
the standard internal-error text, the wildcard arm produces the literal
"unknown message variant " followed by a rendering of the offending message. -/
def CustomizePanic.message : CustomizePanic → String
  | .unreachableCustom => "internal error: entered unreachable code"
  | .unknownVariant g => "unknown message variant " ++ g.payload

/-- Conversion of an outbound message from the baseline extension type to an
arbitrary extension message type `C` — the `match self.msg` expression inside
`CustomizeMsg::customize` for `SubMsg<Empty>` (`context.rs`, lines 72-83).
Every structural variant is copied through unchanged; the `Custom` arm is
`unreachable!()` and the wildcard arm panics with "unknown message variant". -/
def CosmosMsg.customize {C : Type} : CosmosMsg Empty → Except CustomizePanic (CosmosMsg C)
  | .Wasm w => .ok (.Wasm w)
  | .Bank b => .ok (.Bank b)
  | .Staking s => .ok (.Staking s)
  | .Distribution d => .ok (.Distribution d)
  | .Custom _ => .error .unreachableCustom
  | .Ibc i => .ok (.Ibc i)
  | .Stargate type_url value => .ok (.Stargate type_url value)
  | .Gov g => .error (.unknownVariant g)

/-- `CustomizeMsg::customize` for `SubMsg<Empty>` (`context.rs`, lines 69-89):
rebuilds the envelope with the converted payload and the `id`, `gas_limit`
and `reply_on` fields copied through. -/
def SubMsg.customize {C : Type} (s : SubMsg Empty) : Except CustomizePanic (SubMsg C) :=
  match CosmosMsg.customize s.msg with
  | .error p => .error p
  | .ok m =>
    .ok { msg := m, id := s.id, gas_limit := s.gas_limit, reply_on := s.reply_on }

/-- Mapping `self.messages.into_iter().map(CustomizeMsg::customize)` with the
first panic aborting the whole conversion, as the iterator is drained inside
`add_submessages`. -/
def customizeMsgs {C : Type} : List (SubMsg Empty) → Except CustomizePanic (List (SubMsg C))
  | [] => .ok []
  | s :: rest =>
    match SubMsg.customize s with
    | .error p => .error p
    | .ok s2 =>
      match customizeMsgs rest with
      | .error p => .error p
      | .ok rest2 => .ok (s2 :: rest2)

/-- `CustomizeResponse::customize` for `Response<Empty>` (`context.rs`, lines
97-107): a fresh response is built by adding the converted sub-messages, the
original events and the original attributes, and the opaque data payload is
then assigned. -/
def Response.customize {C : Type} (r : Response Empty) : Except CustomizePanic (Response C) :=
  match customizeMsgs r.messages with
  | .error p => .error p
  | .ok msgs =>
    let resp := ((Response.new.add_submessages msgs).add_events r.events).add_attributes
      r.attributes
    .ok { resp with data := r.data }

/-- Does the outbound message carry the extension-custom variant? -/
def CosmosMsg.isCustom {C : Type} : CosmosMsg C → Bool
  | .Custom _ => true
  | _ => false

/-- Is the outbound message outside the set handled by `CustomizeMsg::customize`
(so that only the wildcard arm matches it)? -/
def CosmosMsg.isUnrecognized {C : Type} : CosmosMsg C → Bool
  | .Gov _ => true
  | _ => false

/-- The storage handle of a request context (`dyn Storage`), modelled as an
association list from byte keys to byte values. -/
abbrev Storage := List (Binary × Binary)

/-- The host-capability handle of a request context (`dyn Api`), modelled as an
abstract handle identity: the code under review only moves it around. -/
abbrev Api := Nat

/-- The result of a raw query against the underlying query dispatcher. -/
abbrev QuerierResult := Except String Binary

/-- The underlying query dispatcher (`dyn Querier`): resolves a raw encoded
query to a raw result.  `QuerierWrapper::deref` exposes exactly this. -/
abbrev RawQuerier := Binary → QuerierResult

/-- The typed wrapper `cosmwasm_std::QuerierWrapper<Q>` around the underlying
dispatcher; the type parameter `Q` is phantom, the behaviour is `raw`. -/
structure QuerierWrapper (Q : Type) where
  raw : RawQuerier

/-- Constructor `QuerierWrapper::new`, wrapping an underlying dispatcher. -/
def QuerierWrapper.new {Q : Type} (raw : RawQuerier) : QuerierWrapper Q :=
  { raw := raw }

/-- The immutable request context `cosmwasm_std::Deps<Q>`. -/
structure Deps (Q : Type) where
  storage : Storage
  api : Api
  querier : QuerierWrapper Q

/-- The mutable request context `cosmwasm_std::DepsMut<Q>`. -/
structure DepsMut (Q : Type) where
  storage : Storage
  api : Api
  querier : QuerierWrapper Q

/-- `CustomizeDepsMut::customize` for `&mut DepsMut<Q>` (`context.rs`, lines
23-34): rebuilds the context over the baseline query type, reusing the storage
and api handles and wrapping the same underlying query dispatcher. -/
def DepsMut.customize {Q : Type} (d : DepsMut Q) : DepsMut Empty :=
  { storage := d.storage, api := d.api, querier := QuerierWrapper.new d.querier.raw }

/-- `CustomizeDeps::customize` for `&Deps<Q>` (`context.rs`, lines 50-61). -/
def Deps.customize {Q : Type} (d : Deps Q) : Deps Empty :=
  { storage := d.storage, api := d.api, querier := QuerierWrapper.new d.querier.raw }

/-- Block, transaction and contract metadata (`cosmwasm_std::Env`), opaque to
the code under review. -/
structure Env where
  block_height : Nat
  chain_id : String
  contract_address : String
deriving DecidableEq, Repr

/-- Sender metadata (`cosmwasm_std::MessageInfo`). -/
structure MessageInfo where
  sender : String
  funds : List Coin
deriving DecidableEq, Repr

/-- Data returned on success of a sub-message (`SubMsgExecutionResponse`). -/
structure SubMsgResponse where
  events : List Event
  data : Option Binary
deriving DecidableEq, Repr

/-- The structured sub-message execution outcome handed to `reply`
(`cosmwasm_std::Reply`). -/
structure Reply where
  id : Nat
  result : Except String SubMsgResponse
deriving Repr

/-- A recoverable entry-point failure or a Rust panic unwinding through the
call: `logic` models an `anyhow::Error` rendered as its message, `panicked`
models a panic raised by the customization layer. -/
inductive Failure where
  | logic (msg : String)
  | panicked (p : CustomizePanic)
deriving DecidableEq, Repr

/-- Result type of the fallible entry-point calls (`anyhow::Result`, plus the
panic channel of the customization layer). -/
abbrev CallResult (α : Type) := Except Failure α

/-- Dictionary for the `ContractFn<Q, C>` trait (`execute` or `instantiate`
entry point, `entry_points.rs` lines 17-31): the associated message type is
the parameter `Msg`. -/
structure ContractFn (Q C Msg : Type) where
  call : DepsMut Q → Env → MessageInfo → Msg → CallResult (Response C)

/-- Dictionary for the `PermissionedFn<Q, C>` trait (`sudo` or `migrate` entry
point, `entry_points.rs` lines 98-106): no sender identity is threaded. -/
structure PermissionedFn (Q C Msg : Type) where
  call : DepsMut Q → Env → Msg → CallResult (Response C)

/-- Dictionary for the `ReplyFn<Q, C>` trait (`reply` entry point,
`entry_points.rs` lines 164-169): the input is a structured outcome. -/
structure ReplyFn (Q C : Type) where
  call : DepsMut Q → Env → Reply → CallResult (Response C)

/-- Dictionary for the `QueryFn<Q>` trait (`query` entry point,
`entry_points.rs` lines 222-229): produces an opaque serialized payload. -/
structure QueryFn (Q Msg : Type) where
  call : Deps Q → Env → Msg → CallResult Binary

/-- The tagging wrapper `FnWrapper<F, Msg>` (`entry_points.rs` lines 260-263):
pairs a callable with the one declared message type it is bound to. -/
structure FnWrapper (F : Type) (Msg : Type) where
  f : F

/-- The default method `WrappableFn::wrap` (`entry_points.rs` lines 315-327),
available for every callable; the declared message type is fixed here once
and for all, passed as the first argument. -/
def WrappableFn.wrap {F : Type} (Msg : Type) (f : F) : FnWrapper F Msg :=
  { f := f }

/-- The free function `wap` (`entry_points.rs` lines 331-336), delegating to
`WrappableFn::wrap` with the message type passed explicitly. -/
def wap {F : Type} (Msg : Type) (f : F) : FnWrapper F Msg :=
  WrappableFn.wrap Msg f

/-- The `ContractFn` implementation for `FnWrapper` (`entry_points.rs` lines
265-283): calls the wrapped callable and converts its error type into the
uniform error via `into` (`map_err(Into::into)`). -/
def FnWrapper.callContract {Q C Msg E : Type}
    (w : FnWrapper (DepsMut Q → Env → MessageInfo → Msg → Except E (Response C)) Msg)
    (into : E → Failure) (deps : DepsMut Q) (env : Env) (info : MessageInfo) (msg : Msg) :
    CallResult (Response C) :=
  Except.mapError into (w.f deps env info msg)

/-- The `PermissionedFn` implementation for `FnWrapper` (`entry_points.rs`
lines 285-297). -/
def FnWrapper.callPermissioned {Q C Msg E : Type}
    (w : FnWrapper (DepsMut Q → Env → Msg → Except E (Response C)) Msg)
    (into : E → Failure) (deps : DepsMut Q) (env : Env) (msg : Msg) :
    CallResult (Response C) :=
  Except.mapError into (w.f deps env msg)

/-- The `QueryFn` implementation for `FnWrapper` (`entry_points.rs` lines
299-311). -/
def FnWrapper.callQuery {Q Msg E : Type}
    (w : FnWrapper (Deps Q → Env → Msg → Except E Binary) Msg)
    (into : E → Failure) (deps : Deps Q) (env : Env) (msg : Msg) : CallResult Binary :=
  Except.mapError into (w.f deps env msg)

/-- A wrapped execute/instantiate callable, seen through the `ContractFn`
trait it implements. -/
def FnWrapper.toContractFn {Q C Msg E : Type}
    (w : FnWrapper (DepsMut Q → Env → MessageInfo → Msg → Except E (Response C)) Msg)
    (into : E → Failure) : ContractFn Q C Msg :=
  { call := w.callContract into }

/-- A wrapped sudo/migrate callable, seen through the `PermissionedFn` trait
it implements. -/
def FnWrapper.toPermissionedFn {Q C Msg E : Type}
    (w : FnWrapper (DepsMut Q → Env → Msg → Except E (Response C)) Msg)
    (into : E → Failure) : PermissionedFn Q C Msg :=
  { call := w.callPermissioned into }

/-- The blanket `ReplyFn` implementation for closures (`entry_points.rs` lines
171-180): `map_err(Into::into)` around the callable. -/
def ReplyFn.ofFn {Q C E : Type} (f : DepsMut Q → Env → Reply → Except E (Response C))
    (into : E → Failure) : ReplyFn Q C :=
  { call := fun deps env msg => Except.mapError into (f deps env msg) }

/-- `Result::map` composed with the panicking `CustomizeResponse::customize`,
as in `.map(|resp| resp.customize())`: a panic raised inside the map unwinds
past the `Result` and is modelled as the `panicked` failure. -/
def customizeResult {C : Type} : CallResult (Response Empty) → CallResult (Response C)
  | .ok r =>
    match Response.customize r with
    | .ok r2 => .ok r2
    | .error p => .error (.panicked p)
  | .error e => .error e

/-- `cast_query` for `ContractFn` (`entry_points.rs` lines 35-46): narrows the
context to the handler query type before delegating; the only
`CustomizeDepsMut` implementation narrows to the baseline type.  The target
query type is the first, explicit argument. -/
def cast_query (NewQ : Type) {C Msg : Type} (f : ContractFn Empty C Msg) :
    ContractFn NewQ C Msg :=
  (WrappableFn.wrap Msg (fun (deps : DepsMut NewQ) (env : Env) (info : MessageInfo)
    (msg : Msg) => f.call deps.customize env info msg)).toContractFn id

/-- `cast_msg` (`entry_points.rs` lines 48-58): delegates, then widens the
produced response; the only `CustomizeResponse` implementation widens from the
baseline type.  The target message type is the first, explicit argument. -/
def cast_msg (NewC : Type) {Q Msg : Type} (f : ContractFn Q Empty Msg) :
    ContractFn Q NewC Msg :=
  (WrappableFn.wrap Msg (fun (deps : DepsMut Q) (env : Env) (info : MessageInfo)
    (msg : Msg) => customizeResult (f.call deps env info msg))).toContractFn id

/-- `cast_fn` (`entry_points.rs` lines 60-73): full-casting of an
execute/instantiate handler, narrowing the context before delegating and
widening the produced response after.  The target extension types are the
first two, explicit arguments. -/
def cast_fn (NewQ NewC : Type) {Msg : Type} (f : ContractFn Empty Empty Msg) :
    ContractFn NewQ NewC Msg :=
  (WrappableFn.wrap Msg (fun (deps : DepsMut NewQ) (env : Env) (info : MessageInfo)
    (msg : Msg) => customizeResult (f.call deps.customize env info msg))).toContractFn id

/-- `cast_permissioned_query` (`entry_points.rs` lines 110-118). -/
def cast_permissioned_query (NewQ : Type) {C Msg : Type} (f : PermissionedFn Empty C Msg) :
    PermissionedFn NewQ C Msg :=
  (WrappableFn.wrap Msg (fun (deps : DepsMut NewQ) (env : Env) (msg : Msg) =>
    f.call deps.customize env msg)).toPermissionedFn id

/-- `cast_permissioned_msg` (`entry_points.rs` lines 120-130). -/
def cast_permissioned_msg (NewC : Type) {Q Msg : Type} (f : PermissionedFn Q Empty Msg) :
    PermissionedFn Q NewC Msg :=
  (WrappableFn.wrap Msg (fun (deps : DepsMut Q) (env : Env) (msg : Msg) =>
    customizeResult (f.call deps env msg))).toPermissionedFn id

/-- `cast_permissioned_fn` (`entry_points.rs` lines 132-145). -/
def cast_permissioned_fn (NewQ NewC : Type) {Msg : Type}
    (f : PermissionedFn Empty Empty Msg) : PermissionedFn NewQ NewC Msg :=
  (WrappableFn.wrap Msg (fun (deps : DepsMut NewQ) (env : Env) (msg : Msg) =>
    customizeResult (f.call deps.customize env msg))).toPermissionedFn id

/-- `cast_reply_query` (`entry_points.rs` lines 184-192): the returned closure
is itself the `ReplyFn` (no tagging wrapper is involved for `reply`). -/
def cast_reply_query (NewQ : Type) {C : Type} (f : ReplyFn Empty C) : ReplyFn NewQ C :=
  { call := fun deps env msg => f.call deps.customize env msg }

/-- `cast_reply_msg` (`entry_points.rs` lines 194-203). -/
def cast_reply_msg (NewC : Type) {Q : Type} (f : ReplyFn Q Empty) : ReplyFn Q NewC :=
  { call := fun deps env msg => customizeResult (f.call deps env msg) }

/-- `cast_reply_fn` (`entry_points.rs` lines 205-217). -/
def cast_reply_fn (NewQ NewC : Type) (f : ReplyFn Empty Empty) : ReplyFn NewQ NewC :=
  { call := fun deps env msg => customizeResult (f.call deps.customize env msg) }

/-- `default_sudo_fn` (`entry_points.rs` lines 339-348): unconditionally bails
with the fixed diagnostic; its declared message type is the baseline `Empty`. -/
def default_sudo_fn {Q C : Type} : PermissionedFn Q C Empty :=
  { call := fun _ _ _ => .error (.logic "Sudo not implemented on the contract") }

/-- `default_reply_fn` (`entry_points.rs` lines 351-360). -/
def default_reply_fn {Q C : Type} : ReplyFn Q C :=
  { call := fun _ _ _ => .error (.logic "Reply not implemented on the contract") }

/-- `default_migrate_fn` (`entry_points.rs` lines 363-372). -/
def default_migrate_fn {Q C : Type} : PermissionedFn Q C Empty :=
  { call := fun _ _ _ => .error (.logic "Migrate not implemented on the contract") }

/-- The consumed decoding codec (`cosmwasm_std::from_slice`, a re-export of the
serde decoder): a byte-payload to typed-value decoder that fails with a
descriptive error on malformed or schema-mismatched input.  The code under
review treats it as opaque, so it is a class resolved per message type, as
serde resolves `Deserialize`. -/
class FromSlice (Msg : Type) where
  decode : Binary → Except String Msg

/-- `from_slice` applied at an explicitly given target message type. -/
def from_slice (Msg : Type) [FromSlice Msg] (b : Binary) : Except String Msg :=
  FromSlice.decode b

/-- Modelled from the spec: the decoding codec instance for the baseline
message type `Empty` — missing from the reviewed sources because it lives in
the external serde/cosmwasm codec.  Per the spec it fails with a descriptive
error on malformed input; the unique `Empty` value is encoded as the empty
JSON object, the two bytes 123 and 125, and every other payload is malformed.
The error texts follow the serde ones. -/
instance : FromSlice Empty where
  decode b :=
    if b = [] then .error "EOF while parsing a value at line 1 column 0"
    else if b = [123, 125] then .ok {}
    else .error "Error parsing into type cosmwasm_std::results::empty::Empty"

/-- The contract facade `ContractWrapper` (`contract_wrapper.rs` lines 16-23):
one handler binding per entry-point kind. -/
structure ContractWrapper (Q C EMsg IMsg QMsg SMsg MMsg : Type) where
  execute_fn : ContractFn Q C EMsg
  instantiate_fn : ContractFn Q C IMsg
  query_fn : QueryFn Q QMsg
  sudo_fn : PermissionedFn Q C SMsg
  reply_fn : ReplyFn Q C
  migrate_fn : PermissionedFn Q C MMsg

/-- `ContractWrapper::new` (`contract_wrapper.rs` lines 39-48): built from just
the execute, instantiate and query handlers, with the three defaults installed
for the optional entry points; the defaults declare the baseline message
type. -/
def ContractWrapper.new {Q C EMsg IMsg QMsg : Type} (execute_fn : ContractFn Q C EMsg)
    (instantiate_fn : ContractFn Q C IMsg) (query_fn : QueryFn Q QMsg) :
    ContractWrapper Q C EMsg IMsg QMsg Empty Empty :=
  { execute_fn := execute_fn
    instantiate_fn := instantiate_fn
    query_fn := query_fn
    sudo_fn := default_sudo_fn
    reply_fn := default_reply_fn
    migrate_fn := default_migrate_fn }

/-- `Contract::execute` for `ContractWrapper` (`contract_wrapper.rs` lines
63-71): decodes the raw payload — the decode error is converted into the
uniform error by the question-mark operator — then delegates. -/
def ContractWrapper.execute {Q C EMsg IMsg QMsg SMsg MMsg : Type} [FromSlice EMsg]
    (w : ContractWrapper Q C EMsg IMsg QMsg SMsg MMsg) (deps : DepsMut Q) (env : Env)
    (info : MessageInfo) (msg : Binary) : CallResult (Response C) :=
  match from_slice EMsg msg with
  | .error e => .error (.logic e)
  | .ok m => w.execute_fn.call deps env info m

/-- `Contract::instantiate` for `ContractWrapper` (`contract_wrapper.rs` lines
73-81). -/
def ContractWrapper.instantiate {Q C EMsg IMsg QMsg SMsg MMsg : Type} [FromSlice IMsg]
    (w : ContractWrapper Q C EMsg IMsg QMsg SMsg MMsg) (deps : DepsMut Q) (env : Env)
    (info : MessageInfo) (msg : Binary) : CallResult (Response C) :=
  match from_slice IMsg msg with
  | .error e => .error (.logic e)
  | .ok m => w.instantiate_fn.call deps env info m

/-- `Contract::query` for `ContractWrapper` (`contract_wrapper.rs` lines
83-90). -/
def ContractWrapper.query {Q C EMsg IMsg QMsg SMsg MMsg : Type} [FromSlice QMsg]
    (w : ContractWrapper Q C EMsg IMsg QMsg SMsg MMsg) (deps : Deps Q) (env : Env)
    (msg : Binary) : CallResult Binary :=
  match from_slice QMsg msg with
  | .error e => .error (.logic e)
  | .ok m => w.query_fn.call deps env m

/-- `Contract::sudo` for `ContractWrapper` (`contract_wrapper.rs` lines 92-99):
the payload is decoded before the bound sudo handler is reached. -/
def ContractWrapper.sudo {Q C EMsg IMsg QMsg SMsg MMsg : Type} [FromSlice SMsg]
    (w : ContractWrapper Q C EMsg IMsg QMsg SMsg MMsg) (deps : DepsMut Q) (env : Env)
    (msg : Binary) : CallResult (Response C) :=
  match from_slice SMsg msg with
  | .error e => .error (.logic e)
  | .ok m => w.sudo_fn.call deps env m

/-- `Contract::reply` for `ContractWrapper` (`contract_wrapper.rs` lines
101-108): the structured outcome is passed straight through, no decoding. -/
def ContractWrapper.reply {Q C EMsg IMsg QMsg SMsg MMsg : Type}
    (w : ContractWrapper Q C EMsg IMsg QMsg SMsg MMsg) (deps : DepsMut Q) (env : Env)
    (msg : Reply) : CallResult (Response C) :=
  w.reply_fn.call deps env msg

/-- `Contract::migrate` for `ContractWrapper` (`contract_wrapper.rs` lines
110-117). -/
def ContractWrapper.migrate {Q C EMsg IMsg QMsg SMsg MMsg : Type} [FromSlice MMsg]
    (w : ContractWrapper Q C EMsg IMsg QMsg SMsg MMsg) (deps : DepsMut Q) (env : Env)
    (msg : Binary) : CallResult (Response C) :=
  match from_slice MMsg msg with
  | .error e => .error (.logic e)
  | .ok m => w.migrate_fn.call deps env m

/-- Modelled from the spec: narrowing an outbound message back to the baseline
shape ("projecting the shared fields of the widened Response back").  No such
function exists in the reviewed sources; per the spec every non-custom variant
is carried back unchanged, while an extension-custom payload has no baseline
counterpart. -/
def narrowMsg {C : Type} : CosmosMsg C → Option (CosmosMsg Empty)
  | .Wasm w => some (.Wasm w)
  | .Bank b => some (.Bank b)
  | .Staking s => some (.Staking s)
  | .Distribution d => some (.Distribution d)
  | .Custom _ => none
  | .Ibc i => some (.Ibc i)
  | .Stargate type_url value => some (.Stargate type_url value)
  | .Gov g => some (.Gov g)

/-- Modelled from the spec: narrowing a sub-message envelope back to the
baseline shape, keeping identifier, gas ceiling and reply policy. -/
def narrowSub {C : Type} (s : SubMsg C) : Option (SubMsg Empty) :=
  (narrowMsg s.msg).map fun m =>
    { msg := m, id := s.id, gas_limit := s.gas_limit, reply_on := s.reply_on }

/-- Modelled from the spec: narrowing a list of sub-message envelopes. -/
def narrowMsgs {C : Type} : List (SubMsg C) → Option (List (SubMsg Empty))
  | [] => some []
  | s :: rest =>
    match narrowSub s with
    | none => none
    | some s2 =>
      match narrowMsgs rest with
      | none => none
      | some rest2 => some (s2 :: rest2)

/-- Modelled from the spec: narrowing a widened Response back to the baseline
shape, keeping events, attributes and the opaque payload. -/
def Response.narrowToBase {C : Type} (r : Response C) : Option (Response Empty) :=
  (narrowMsgs r.messages).map fun ms =>
    { messages := ms, attributes := r.attributes, events := r.events, data := r.data }

/-- Modelled from the spec: the observable outcome of a cast handler after
narrowing a produced Response back to the baseline shape; failures are kept
as they are. -/
def narrowResult {C : Type} : CallResult (Response C) →
    CallResult (Option (Response Empty))
  | .ok r => .ok r.narrowToBase
  | .error e => .error e

/-- Formalization of "copies the payload variant through structurally
unchanged": the two outbound messages carry the same variant with equal
payload fields; only the extension type parameter differs. -/
def CosmosMsg.sameShape {C : Type} : CosmosMsg Empty → CosmosMsg C → Prop
  | .Wasm w, .Wasm w2 => w = w2
  | .Bank b, .Bank b2 => b = b2
  | .Staking s, .Staking s2 => s = s2
  | .Distribution d, .Distribution d2 => d = d2
  | .Ibc i, .Ibc i2 => i = i2
  | .Stargate u v, .Stargate u2 v2 => u = u2 ∧ v = v2
  | .Gov g, .Gov g2 => g = g2
  | _, _ => False

/-- Proof-internal normal form: the failure behaviour of the payload
conversion, which does not depend on the target extension type. -/
def msgPlan : CosmosMsg Empty → Except CustomizePanic Unit
  | .Custom _ => .error .unreachableCustom
  | .Gov g => .error (.unknownVariant g)
  | _ => .ok ()

/-- Proof-internal normal form: the failure behaviour of converting a list of
sub-message envelopes, which does not depend on the target extension type. -/
def msgsPlan : List (SubMsg Empty) → Except CustomizePanic Unit
  | [] => .ok ()
  | s :: rest =>
    match msgPlan s.msg with
    | .error p => .error p
    | .ok _ => msgsPlan rest

/-- Converting one envelope either succeeds with an envelope that narrows back
to the original, or fails with the panic predicted by the plan. -/
theorem sub_norm {C : Type} (s : SubMsg Empty) :
    (match SubMsg.customize (C := C) s with
     | .ok s2 => narrowSub s2 = some s ∧ msgPlan s.msg = Except.ok ()
     | .error p => msgPlan s.msg = Except.error p) := by
  rcases s with ⟨m, i, g, ro⟩
  cases m <;>
    simp [SubMsg.customize, CosmosMsg.customize, msgPlan, narrowSub, narrowMsg]

/-- Converting a list of envelopes either succeeds with a list that narrows
back to the original, or fails with the panic predicted by the plan. -/
theorem msgs_norm {C : Type} (l : List (SubMsg Empty)) :
    (match customizeMsgs (C := C) l with
     | .ok l2 => narrowMsgs l2 = some l ∧ msgsPlan l = Except.ok ()
     | .error p => msgsPlan l = Except.error p) := by
  induction l with
  | nil => simp [customizeMsgs, narrowMsgs, msgsPlan]
  | cons s rest ih =>
    have hs := sub_norm (C := C) s
    cases hc : SubMsg.customize (C := C) s with
    | error p =>
      rw [hc] at hs
      simp [customizeMsgs, hc, msgsPlan, hs]
    | ok s2 =>
      rw [hc] at hs
      cases hr : customizeMsgs (C := C) rest with
      | error p =>
        rw [hr] at ih
        simp [customizeMsgs, hc, hr, msgsPlan, hs.2, ih]
      | ok rest2 =>
        rw [hr] at ih
        simp [customizeMsgs, hc, hr, msgsPlan, narrowMsgs, hs.1, hs.2, ih.1, ih.2]

/-- Converting a Response either succeeds with a Response that narrows back to
the original, or fails with the panic predicted by the plan on its messages. -/
theorem resp_norm {C : Type} (r : Response Empty) :
    (match Response.customize (C := C) r with
     | .ok r2 => Response.narrowToBase r2 = some r ∧ msgsPlan r.messages = Except.ok ()
     | .error p => msgsPlan r.messages = Except.error p) := by
  have hm := msgs_norm (C := C) r.messages
  cases hc : customizeMsgs (C := C) r.messages with
  | error p =>
    rw [hc] at hm
    simp [Response.customize, hc, hm]
  | ok msgs =>
    rw [hc] at hm
    simp [Response.customize, hc, Response.new, Response.add_submessages,
      Response.add_events, Response.add_attributes, Response.narrowToBase, hm.1, hm.2]

/-- Mapping the identity over the error of a result changes nothing. -/
theorem mapError_id {ε α : Type} (x : Except ε α) : Except.mapError id x = x := by
  cases x <;> rfl

/-- The narrowed outcome of widening a call result does not depend on the
target extension type. -/
theorem narrow_customize_indep {CA CB : Type} (x : CallResult (Response Empty)) :
    narrowResult (customizeResult (C := CA) x) =
      narrowResult (customizeResult (C := CB) x) := by
  cases x with
  | error e => rfl
  | ok r =>
    have hA := resp_norm (C := CA) r
    have hB := resp_norm (C := CB) r
    cases hcA : Response.customize (C := CA) r with
    | error pA =>
      rw [hcA] at hA
      cases hcB : Response.customize (C := CB) r with
      | error pB =>
        rw [hcB] at hB
        rw [hA] at hB
        simp only [Except.error.injEq] at hB
        simp [customizeResult, hcA, hcB, narrowResult, hB]
      | ok rB =>
        rw [hcB] at hB
        rw [hA] at hB
        simp at hB
    | ok rA =>
      rw [hcA] at hA
      cases hcB : Response.customize (C := CB) r with
      | error pB =>
        rw [hcB] at hB
        rw [hB] at hA
        simp at hA
      | ok rB =>
        rw [hcB] at hB
        simp [customizeResult, hcA, hcB, narrowResult, hA.1, hB.1]

/-- A list of envelopes holding an unrecognized payload and no extension-custom
payload converts to an unknown-variant panic. -/
theorem msgs_unrecognized {C : Type} (l : List (SubMsg Empty))
    (hex : ∃ s ∈ l, s.msg.isUnrecognized = true)
    (hnc : ∀ s ∈ l, s.msg.isCustom = false) :
    ∃ g, customizeMsgs (C := C) l = Except.error (CustomizePanic.unknownVariant g) := by
  induction l with
  | nil => simp at hex
  | cons s rest ih =>
    rcases s with ⟨m, i, gl, ro⟩
    cases m with
    | Custom c =>
      have := hnc ⟨.Custom c, i, gl, ro⟩ (by simp)
      simp [CosmosMsg.isCustom] at this
    | Gov g =>
      exact ⟨g, by simp [customizeMsgs, SubMsg.customize, CosmosMsg.customize]⟩
    | Wasm w =>
      have hex2 : ∃ s ∈ rest, s.msg.isUnrecognized = true := by
        rcases hex with ⟨s2, hmem, hu⟩
        rcases List.mem_cons.mp hmem with h | h
        · subst h; simp [CosmosMsg.isUnrecognized] at hu
        · exact ⟨s2, h, hu⟩
      rcases ih hex2 (fun s2 h => hnc s2 (List.mem_cons_of_mem _ h)) with ⟨g, hg⟩
      exact ⟨g, by simp [customizeMsgs, SubMsg.customize, CosmosMsg.customize, hg]⟩
    | Bank b =>
      have hex2 : ∃ s ∈ rest, s.msg.isUnrecognized = true := by
        rcases hex with ⟨s2, hmem, hu⟩
        rcases List.mem_cons.mp hmem with h | h
        · subst h; simp [CosmosMsg.isUnrecognized] at hu
        · exact ⟨s2, h, hu⟩
      rcases ih hex2 (fun s2 h => hnc s2 (List.mem_cons_of_mem _ h)) with ⟨g, hg⟩
      exact ⟨g, by simp [customizeMsgs, SubMsg.customize, CosmosMsg.customize, hg]⟩
    | Staking st =>
      have hex2 : ∃ s ∈ rest, s.msg.isUnrecognized = true := by
        rcases hex with ⟨s2, hmem, hu⟩
        rcases List.mem_cons.mp hmem with h | h
        · subst h; simp [CosmosMsg.isUnrecognized] at hu
        · exact ⟨s2, h, hu⟩
      rcases ih hex2 (fun s2 h => hnc s2 (List.mem_cons_of_mem _ h)) with ⟨g, hg⟩
      exact ⟨g, by simp [customizeMsgs, SubMsg.customize, CosmosMsg.customize, hg]⟩
    | Distribution dd =>
      have hex2 : ∃ s ∈ rest, s.msg.isUnrecognized = true := by
        rcases hex with ⟨s2, hmem, hu⟩
        rcases List.mem_cons.mp hmem with h | h
        · subst h; simp [CosmosMsg.isUnrecognized] at hu
        · exact ⟨s2, h, hu⟩
      rcases ih hex2 (fun s2 h => hnc s2 (List.mem_cons_of_mem _ h)) with ⟨g, hg⟩
      exact ⟨g, by simp [customizeMsgs, SubMsg.customize, CosmosMsg.customize, hg]⟩
    | Ibc ib =>
      have hex2 : ∃ s ∈ rest, s.msg.isUnrecognized = true := by
        rcases hex with ⟨s2, hmem, hu⟩
        rcases List.mem_cons.mp hmem with h | h
        · subst h; simp [CosmosMsg.isUnrecognized] at hu
        · exact ⟨s2, h, hu⟩
      rcases ih hex2 (fun s2 h => hnc s2 (List.mem_cons_of_mem _ h)) with ⟨g, hg⟩
      exact ⟨g, by simp [customizeMsgs, SubMsg.customize, CosmosMsg.customize, hg]⟩
    | Stargate u v =>
      have hex2 : ∃ s ∈ rest, s.msg.isUnrecognized = true := by
        rcases hex with ⟨s2, hmem, hu⟩
        rcases List.mem_cons.mp hmem with h | h
        · subst h; simp [CosmosMsg.isUnrecognized] at hu
        · exact ⟨s2, h, hu⟩
      rcases ih hex2 (fun s2 h => hnc s2 (List.mem_cons_of_mem _ h)) with ⟨g, hg⟩
      exact ⟨g, by simp [customizeMsgs, SubMsg.customize, CosmosMsg.customize, hg]⟩

/-- The panic message of the wildcard arm starts with the literal
"unknown message variant". -/
theorem unknown_message_starts (g : GovMsg) :
    ∃ rest, (CustomizePanic.unknownVariant g).message =
      "unknown message variant" ++ rest := by
  refine ⟨" " ++ g.payload, ?_⟩
  have hsp : ("unknown message variant" ++ " " : String) = "unknown message variant " := by
    rfl
  show "unknown message variant " ++ g.payload =
    "unknown message variant" ++ (" " ++ g.payload)
  rw [← String.append_assoc, hsp]

/-- Concrete fixture: a raw query dispatcher that rejects every query. -/
def raw0 : RawQuerier := fun _ => Except.error "unsupported query"

/-- Concrete fixture: a small storage content. -/
def store0 : Storage := [([1], [2])]

/-- Concrete fixture: execution metadata. -/
def env0 : Env := { block_height := 12345, chain_id := "testing", contract_address := "cw0" }

/-- Concrete fixture: sender metadata. -/
def info0 : MessageInfo := { sender := "sender0", funds := [] }

/-- Concrete fixture: a mutable request context over a trivial query type. -/
def dm0 : DepsMut Unit := { storage := store0, api := 7, querier := { raw := raw0 } }

/-- Concrete fixture: an immutable request context over a trivial query type. -/
def dI0 : Deps Unit := { storage := store0, api := 7, querier := { raw := raw0 } }

/-- Concrete fixture: a structured sub-message outcome. -/
def reply0 : Reply := { id := 1, result := Except.error "submessage failed" }

/-- Concrete fixture: an execute handler accepting the baseline message. -/
def e0 : ContractFn Unit Unit Empty :=
  { call := fun _ _ _ _ => Except.ok Response.new }

/-- Concrete fixture: an instantiate handler accepting the baseline message. -/
def i0 : ContractFn Unit Unit Empty :=
  { call := fun _ _ _ _ => Except.ok Response.new }

/-- Concrete fixture: a query handler accepting the baseline message. -/
def q0 : QueryFn Unit Empty :=
  { call := fun _ _ _ => Except.ok [42] }

/-- Concrete fixture: an envelope with a funds-transfer payload. -/
def subBankW : SubMsg Empty :=
  { msg := .Bank { payload := "send" }, id := 5, gas_limit := some 1000, reply_on := .Always }

/-- Concrete fixture: an envelope carrying the extension-custom payload, which
is constructible because the baseline type is an inhabited empty struct. -/
def subCustomW : SubMsg Empty :=
  { msg := .Custom {}, id := 7, gas_limit := none, reply_on := .Never }

/-- Concrete fixture: an envelope with an unrecognized payload variant. -/
def subGovW : SubMsg Empty :=
  { msg := .Gov { payload := "gov" }, id := 1, gas_limit := none, reply_on := .Never }

/-- Concrete fixture: a response with one message, one attribute, one event and
an opaque payload. -/
def rW : Response Empty :=
  { messages := [subBankW], attributes := [{ key := "k", value := "v" }],
    events := [{ ty := "wasm", attributes := [] }], data := some [0, 1] }

/-- Concrete fixture: the envelope of `subBankW` at the extension type `Nat`. -/
def subBankWC : SubMsg Nat :=
  { msg := .Bank { payload := "send" }, id := 5, gas_limit := some 1000, reply_on := .Always }

/-- Concrete fixture: the widening of `rW` to the extension type `Nat`. -/
def rWC : Response Nat :=
  { messages := [subBankWC], attributes := [{ key := "k", value := "v" }],
    events := [{ ty := "wasm", attributes := [] }], data := some [0, 1] }

/-- Concrete fixture: a response whose only message is unrecognized. -/
def rGov : Response Empty :=
  { messages := [subGovW], attributes := [], events := [], data := none }

/-- C1: widening a `Response` built under the baseline extension type to any
extension message type `C` preserves the event sequence, the attribute
sequence and the optional opaque data payload exactly, and produces the
sub-message list obtained by converting each envelope independently. -/
theorem c1_customize_response_preserves_shared_fields {C : Type} (r : Response Empty)
    (r2 : Response C) (h : Response.customize r = Except.ok r2) :
    r2.events = r.events ∧ r2.attributes = r.attributes ∧ r2.data = r.data ∧
    customizeMsgs r.messages = Except.ok r2.messages := by
  cases hc : customizeMsgs (C := C) r.messages with
  | error p => simp [Response.customize, hc] at h
  | ok msgs =>
    simp [Response.customize, hc, Response.new, Response.add_submessages,
      Response.add_events, Response.add_attributes] at h
    subst h
    simp [hc]

/-- Witness for C1 at a concrete response and the target extension type `Nat`. -/
theorem c1_witness :
    Response.customize (C := Nat) rW = Except.ok rWC ∧
    (rWC.events = rW.events ∧ rWC.attributes = rW.attributes ∧ rWC.data = rW.data ∧
      customizeMsgs rW.messages = Except.ok rWC.messages) :=
  ⟨rfl, c1_customize_response_preserves_shared_fields rW rWC rfl⟩

/-- C2 counterexample: a `SubMsg` built under the baseline extension type CAN
carry the extension-custom variant, because `Empty` is an inhabited empty
struct; widening such an envelope is not infallible — it hits the
`unreachable!()` arm and aborts with a fatal invariant violation. -/
theorem c2_counterexample :
    SubMsg.customize (C := Nat) subCustomW =
      Except.error CustomizePanic.unreachableCustom := rfl

/-- C2 (amended): widening a `SubMsg<Empty>` to any extension message type is
total and succeeds whenever the payload is neither the extension-custom
variant nor outside the handled set; the extension-custom variant, although
constructible (the baseline type is an inhabited empty struct), triggers the
fatal `unreachable!()` invariant violation rather than a recoverable error. -/
theorem c2_customize_total_except_custom {C : Type} (s : SubMsg Empty) :
    (s.msg.isCustom = false → s.msg.isUnrecognized = false →
      ∃ s2, SubMsg.customize (C := C) s = Except.ok s2) ∧
    (∀ e, s.msg = CosmosMsg.Custom e →
      SubMsg.customize (C := C) s = Except.error CustomizePanic.unreachableCustom) := by
  rcases s with ⟨m, i, gl, ro⟩
  constructor
  · intro h1 h2
    cases m with
    | Custom c => simp [CosmosMsg.isCustom] at h1
    | Gov g => simp [CosmosMsg.isUnrecognized] at h2
    | Wasm w => exact ⟨_, rfl⟩
    | Bank b => exact ⟨_, rfl⟩
    | Staking st => exact ⟨_, rfl⟩
    | Distribution dd => exact ⟨_, rfl⟩
    | Ibc ib => exact ⟨_, rfl⟩
    | Stargate u v => exact ⟨_, rfl⟩
  · intro e he
    simp only at he
    subst he
    rfl

/-- Witness for C2 (amended) at a handled payload and at the custom payload. -/
theorem c2_witness :
    (subBankW.msg.isCustom = false ∧ subBankW.msg.isUnrecognized = false ∧
      ∃ s2, SubMsg.customize (C := Nat) subBankW = Except.ok s2) ∧
    (subCustomW.msg = CosmosMsg.Custom {} ∧
      SubMsg.customize (C := Nat) subCustomW =
        Except.error CustomizePanic.unreachableCustom) :=
  ⟨⟨rfl, rfl, (c2_customize_total_except_custom subBankW).1 rfl rfl⟩,
   ⟨rfl, (c2_customize_total_except_custom subCustomW).2 {} rfl⟩⟩

/-- C3: widening an envelope whose payload is an unrecognized variant outside
the handled set fails with the "unknown message variant" panic, and so does
widening a response that contains such an envelope (and no extension-custom
envelope, which would abort earlier with the other panic); the rendered
message starts with the literal "unknown message variant". -/
theorem c3_unknown_variant_is_reported {C : Type} (s : SubMsg Empty) (r : Response Empty) :
    (s.msg.isUnrecognized = true →
      ∃ g, SubMsg.customize (C := C) s = Except.error (CustomizePanic.unknownVariant g) ∧
        ∃ rest, (CustomizePanic.unknownVariant g).message =
          "unknown message variant" ++ rest) ∧
    ((∃ s2 ∈ r.messages, s2.msg.isUnrecognized = true) →
      (∀ s2 ∈ r.messages, s2.msg.isCustom = false) →
      ∃ g, Response.customize (C := C) r = Except.error (CustomizePanic.unknownVariant g) ∧
        ∃ rest, (CustomizePanic.unknownVariant g).message =
          "unknown message variant" ++ rest) := by
  constructor
  · intro hu
    rcases s with ⟨m, i, gl, ro⟩
    cases m <;> simp [CosmosMsg.isUnrecognized] at hu
    case Gov g =>
      exact ⟨g, rfl, unknown_message_starts g⟩
  · intro hex hnc
    rcases msgs_unrecognized (C := C) r.messages hex hnc with ⟨g, hg⟩
    exact ⟨g, by simp [Response.customize, hg], unknown_message_starts g⟩

/-- Witness for C3 at a concrete unrecognized envelope and response. -/
theorem c3_witness :
    (subGovW.msg.isUnrecognized = true ∧
      ∃ g, SubMsg.customize (C := Nat) subGovW =
          Except.error (CustomizePanic.unknownVariant g) ∧
        ∃ rest, (CustomizePanic.unknownVariant g).message =
          "unknown message variant" ++ rest) ∧
    ((∃ s2 ∈ rGov.messages, s2.msg.isUnrecognized = true) ∧
      (∀ s2 ∈ rGov.messages, s2.msg.isCustom = false) ∧
      ∃ g, Response.customize (C := Nat) rGov =
          Except.error (CustomizePanic.unknownVariant g) ∧
        ∃ rest, (CustomizePanic.unknownVariant g).message =
          "unknown message variant" ++ rest) :=
  ⟨⟨rfl, (c3_unknown_variant_is_reported subGovW rGov).1 rfl⟩,
   ⟨by decide, by decide,
    (c3_unknown_variant_is_reported subGovW rGov).2 (by decide) (by decide)⟩⟩

/-- C4 counterexample: on a facade built from just execute, instantiate and
query handlers, a sudo call whose payload is malformed does NOT return the
fixed "Sudo not implemented on the contract" diagnostic — the payload is
decoded before the default handler is reached, so the call returns the
decoding error instead. -/
theorem c4_counterexample :
    (ContractWrapper.new e0 i0 q0).sudo dm0 env0 [] =
      Except.error (Failure.logic "EOF while parsing a value at line 1 column 0") ∧
    Failure.logic "EOF while parsing a value at line 1 column 0" ≠
      Failure.logic "Sudo not implemented on the contract" :=
  ⟨rfl, by decide⟩

/-- C4 (amended): on a facade built via `new` from just execute, instantiate
and query handlers, a sudo or migrate call whose payload decodes successfully
returns the fixed "not implemented" diagnostic for its kind (a malformed
payload instead yields the decoder error), a reply call unconditionally
returns its fixed diagnostic, and calls to the three supplied kinds with
well-formed payloads delegate to the supplied handlers. -/
theorem c4_defaults_and_delegation {Q C EMsg IMsg QMsg : Type} [FromSlice EMsg]
    [FromSlice IMsg] [FromSlice QMsg] (e : ContractFn Q C EMsg) (i : ContractFn Q C IMsg)
    (q : QueryFn Q QMsg) (dm : DepsMut Q) (d : Deps Q) (env : Env) (info : MessageInfo)
    (b : Binary) (rm : Reply) :
    (from_slice Empty b = Except.ok {} →
      (ContractWrapper.new e i q).sudo dm env b =
        Except.error (Failure.logic "Sudo not implemented on the contract")) ∧
    ((ContractWrapper.new e i q).reply dm env rm =
      Except.error (Failure.logic "Reply not implemented on the contract")) ∧
    (from_slice Empty b = Except.ok {} →
      (ContractWrapper.new e i q).migrate dm env b =
        Except.error (Failure.logic "Migrate not implemented on the contract")) ∧
    (∀ m, from_slice EMsg b = Except.ok m →
      (ContractWrapper.new e i q).execute dm env info b = e.call dm env info m) ∧
    (∀ m, from_slice IMsg b = Except.ok m →
      (ContractWrapper.new e i q).instantiate dm env info b = i.call dm env info m) ∧
    (∀ m, from_slice QMsg b = Except.ok m →
      (ContractWrapper.new e i q).query d env b = q.call d env m) := by
  refine ⟨fun h => ?_, ?_, fun h => ?_, fun m h => ?_, fun m h => ?_, fun m h => ?_⟩ <;>
    simp [ContractWrapper.new, ContractWrapper.sudo, ContractWrapper.reply,
      ContractWrapper.migrate, ContractWrapper.execute, ContractWrapper.instantiate,
      ContractWrapper.query, default_sudo_fn, default_reply_fn, default_migrate_fn, *]

/-- Witness for C4 (amended) at a well-formed payload. -/
theorem c4_witness :
    from_slice Empty [123, 125] = Except.ok {} ∧
    (ContractWrapper.new e0 i0 q0).sudo dm0 env0 [123, 125] =
      Except.error (Failure.logic "Sudo not implemented on the contract") ∧
    (ContractWrapper.new e0 i0 q0).reply dm0 env0 reply0 =
      Except.error (Failure.logic "Reply not implemented on the contract") ∧
    (ContractWrapper.new e0 i0 q0).migrate dm0 env0 [123, 125] =
      Except.error (Failure.logic "Migrate not implemented on the contract") ∧
    (ContractWrapper.new e0 i0 q0).execute dm0 env0 info0 [123, 125] =
      e0.call dm0 env0 info0 {} :=
  ⟨rfl,
   (c4_defaults_and_delegation e0 i0 q0 dm0 dI0 env0 info0 [123, 125] reply0).1 rfl,
   (c4_defaults_and_delegation e0 i0 q0 dm0 dI0 env0 info0 [123, 125] reply0).2.1,
   (c4_defaults_and_delegation e0 i0 q0 dm0 dI0 env0 info0 [123, 125] reply0).2.2.1 rfl,
   (c4_defaults_and_delegation e0 i0 q0 dm0 dI0 env0 info0 [123, 125] reply0).2.2.2.1 {} rfl⟩

/-- C5: for every raw-payload entry point of the facade (execute, instantiate,
query, sudo, migrate), a payload the decoder rejects yields a recoverable
failure of the same uniform error kind used for handler logic failures,
carrying the decoder message as its cause. -/
theorem c5_decode_failure_recoverable {Q C EMsg IMsg QMsg SMsg MMsg : Type}
    [FromSlice EMsg] [FromSlice IMsg] [FromSlice QMsg] [FromSlice SMsg] [FromSlice MMsg]
    (w : ContractWrapper Q C EMsg IMsg QMsg SMsg MMsg) (dm : DepsMut Q) (d : Deps Q)
    (env : Env) (info : MessageInfo) (b : Binary) (err : String) :
    (from_slice EMsg b = Except.error err →
      w.execute dm env info b = Except.error (Failure.logic err)) ∧
    (from_slice IMsg b = Except.error err →
      w.instantiate dm env info b = Except.error (Failure.logic err)) ∧
    (from_slice QMsg b = Except.error err →
      w.query d env b = Except.error (Failure.logic err)) ∧
    (from_slice SMsg b = Except.error err →
      w.sudo dm env b = Except.error (Failure.logic err)) ∧
    (from_slice MMsg b = Except.error err →
      w.migrate dm env b = Except.error (Failure.logic err)) := by
  refine ⟨fun h => ?_, fun h => ?_, fun h => ?_, fun h => ?_, fun h => ?_⟩ <;>
    simp [ContractWrapper.execute, ContractWrapper.instantiate, ContractWrapper.query,
      ContractWrapper.sudo, ContractWrapper.migrate, h]

/-- Witness for C5 at the empty (malformed) payload. -/
theorem c5_witness :
    from_slice Empty [] =
      Except.error "EOF while parsing a value at line 1 column 0" ∧
    (ContractWrapper.new e0 i0 q0).execute dm0 env0 info0 [] =
      Except.error (Failure.logic "EOF while parsing a value at line 1 column 0") ∧
    (ContractWrapper.new e0 i0 q0).query dI0 env0 [] =
      Except.error (Failure.logic "EOF while parsing a value at line 1 column 0") :=
  ⟨rfl,
   (c5_decode_failure_recoverable (ContractWrapper.new e0 i0 q0) dm0 dI0 env0 info0 []
     "EOF while parsing a value at line 1 column 0").1 rfl,
   (c5_decode_failure_recoverable (ContractWrapper.new e0 i0 q0) dm0 dI0 env0 info0 []
     "EOF while parsing a value at line 1 column 0").2.2.1 rfl⟩

/-- C6: widening an envelope with a non-custom, handled payload leaves the
correlation identifier, the reply policy and the gas ceiling exactly
unchanged, and copies the payload variant through structurally unchanged. -/
theorem c6_envelope_frame_preserved {C : Type} (s : SubMsg Empty)
    (h1 : s.msg.isCustom = false) (h2 : s.msg.isUnrecognized = false) :
    ∃ s2, SubMsg.customize (C := C) s = Except.ok s2 ∧ s2.id = s.id ∧
      s2.reply_on = s.reply_on ∧ s2.gas_limit = s.gas_limit ∧
      CosmosMsg.sameShape s.msg s2.msg := by
  rcases s with ⟨m, i, gl, ro⟩
  cases m with
  | Custom c => simp [CosmosMsg.isCustom] at h1
  | Gov g => simp [CosmosMsg.isUnrecognized] at h2
  | Wasm w => exact ⟨_, rfl, rfl, rfl, rfl, rfl⟩
  | Bank b => exact ⟨_, rfl, rfl, rfl, rfl, rfl⟩
  | Staking st => exact ⟨_, rfl, rfl, rfl, rfl, rfl⟩
  | Distribution dd => exact ⟨_, rfl, rfl, rfl, rfl, rfl⟩
  | Ibc ib => exact ⟨_, rfl, rfl, rfl, rfl, rfl⟩
  | Stargate u v => exact ⟨_, rfl, rfl, rfl, rfl, ⟨rfl, rfl⟩⟩

/-- Witness for C6 at a funds-transfer envelope and the target type `Bool`. -/
theorem c6_witness :
    subBankW.msg.isCustom = false ∧ subBankW.msg.isUnrecognized = false ∧
    ∃ s2, SubMsg.customize (C := Bool) subBankW = Except.ok s2 ∧ s2.id = subBankW.id ∧
      s2.reply_on = subBankW.reply_on ∧ s2.gas_limit = subBankW.gas_limit ∧
      CosmosMsg.sameShape subBankW.msg s2.msg :=
  ⟨rfl, rfl, c6_envelope_frame_preserved subBankW rfl rfl⟩

/-- C8: narrowing a request context (mutable or immutable) from any extension
query type to the baseline keeps the storage and host-capability handles
identically and installs a query dispatcher that delegates every query to the
same underlying mechanism; only the presented type parameter changes. -/
theorem c8_narrowing_preserves_handles {Q : Type} (dm : DepsMut Q) (d : Deps Q) :
    dm.customize.storage = dm.storage ∧ dm.customize.api = dm.api ∧
    dm.customize.querier.raw = dm.querier.raw ∧
    (∀ b, dm.customize.querier.raw b = dm.querier.raw b) ∧
    d.customize.storage = d.storage ∧ d.customize.api = d.api ∧
    d.customize.querier.raw = d.querier.raw ∧
    (∀ b, d.customize.querier.raw b = d.querier.raw b) :=
  ⟨rfl, rfl, rfl, fun _ => rfl, rfl, rfl, rfl, fun _ => rfl⟩

/-- C9: for each entry-point kind, the full-casting transform produces a
binding whose call result equals the composition of the query-casting
transform with the message-casting transform on the same handler. -/
theorem c9_full_cast_equals_composition {NewQ NewC Msg : Type}
    (f : ContractFn Empty Empty Msg) (fp : PermissionedFn Empty Empty Msg)
    (fr : ReplyFn Empty Empty) (d : DepsMut NewQ) (env : Env) (info : MessageInfo)
    (m : Msg) (pm : Msg) (rm : Reply) :
    (cast_fn NewQ NewC f).call d env info m =
      (cast_query NewQ (cast_msg NewC f)).call d env info m ∧
    (cast_permissioned_fn NewQ NewC fp).call d env pm =
      (cast_permissioned_query NewQ (cast_permissioned_msg NewC fp)).call d env pm ∧
    (cast_reply_fn NewQ NewC fr).call d env rm =
      (cast_reply_query NewQ (cast_reply_msg NewC fr)).call d env rm := by
  refine ⟨?_, ?_, ?_⟩ <;>
    simp [cast_fn, cast_query, cast_msg, cast_permissioned_fn, cast_permissioned_query,
      cast_permissioned_msg, cast_reply_fn, cast_reply_query, cast_reply_msg,
      FnWrapper.toContractFn, FnWrapper.toPermissionedFn, FnWrapper.callContract,
      FnWrapper.callPermissioned, WrappableFn.wrap, mapError_id]

/-- C7: a handler authored against the baseline pair, full-cast to two
different concrete extension-type pairs and invoked with equivalent logical
input (same storage, host-capability handle, underlying query dispatcher,
environment, sender metadata and decoded message), yields call results that
are equal after narrowing the produced Responses back to the baseline shape;
this holds for the execute/instantiate, sudo/migrate and reply kinds. -/
theorem c7_cast_agree_after_narrowing (QA CA QB CB : Type) {Msg : Type}
    (f : ContractFn Empty Empty Msg) (fp : PermissionedFn Empty Empty Msg)
    (fr : ReplyFn Empty Empty) (d1 : DepsMut QA) (d2 : DepsMut QB) (env : Env)
    (info : MessageInfo) (m : Msg) (rm : Reply) (hs : d1.storage = d2.storage)
    (ha : d1.api = d2.api) (hq : d1.querier.raw = d2.querier.raw) :
    narrowResult ((cast_fn QA CA f).call d1 env info m) =
      narrowResult ((cast_fn QB CB f).call d2 env info m) ∧
    narrowResult ((cast_permissioned_fn QA CA fp).call d1 env m) =
      narrowResult ((cast_permissioned_fn QB CB fp).call d2 env m) ∧
    narrowResult ((cast_reply_fn QA CA fr).call d1 env rm) =
      narrowResult ((cast_reply_fn QB CB fr).call d2 env rm) := by
  have hd : d1.customize = d2.customize := by
    simp [DepsMut.customize, QuerierWrapper.new, hs, ha, hq]
  refine ⟨?_, ?_, ?_⟩ <;>
    simp only [cast_fn, cast_permissioned_fn, cast_reply_fn, FnWrapper.toContractFn,
      FnWrapper.toPermissionedFn, FnWrapper.callContract, FnWrapper.callPermissioned,
      WrappableFn.wrap, mapError_id, hd] <;>
    exact narrow_customize_indep _

/-- Concrete fixture: a mutable context over the extension query type `Nat`. -/
def dA : DepsMut Nat := { storage := store0, api := 7, querier := { raw := raw0 } }

/-- Concrete fixture: a mutable context over the extension query type `Bool`
holding the same storage, api handle and underlying dispatcher as `dA`. -/
def dB : DepsMut Bool := { storage := store0, api := 7, querier := { raw := raw0 } }

/-- Concrete fixture: the increment handler of the spec example, returning the
attribute ("action", "increment") and no sub-messages. -/
def fInc : ContractFn Empty Empty Empty :=
  { call := fun _ _ _ _ =>
      Except.ok (Response.new.add_attribute { key := "action", value := "increment" }) }

/-- Concrete fixture: a sudo/migrate-shaped increment handler. -/
def fpInc : PermissionedFn Empty Empty Empty :=
  { call := fun _ _ _ =>
      Except.ok (Response.new.add_attribute { key := "action", value := "increment" }) }

/-- Concrete fixture: a reply-shaped increment handler. -/
def frInc : ReplyFn Empty Empty :=
  { call := fun _ _ _ =>
      Except.ok (Response.new.add_attribute { key := "action", value := "increment" }) }

/-- Witness for C7: the increment handler cast to the pairs (Nat, Nat) and
(Bool, Bool) and invoked on equivalent contexts. -/
theorem c7_witness :
    dA.storage = dB.storage ∧ dA.api = dB.api ∧ dA.querier.raw = dB.querier.raw ∧
    narrowResult ((cast_fn Nat Nat fInc).call dA env0 info0 {}) =
      narrowResult ((cast_fn Bool Bool fInc).call dB env0 info0 {}) ∧
    narrowResult ((cast_permissioned_fn Nat Nat fpInc).call dA env0 {}) =
      narrowResult ((cast_permissioned_fn Bool Bool fpInc).call dB env0 {}) ∧
    narrowResult ((cast_reply_fn Nat Nat frInc).call dA env0 reply0) =
      narrowResult ((cast_reply_fn Bool Bool frInc).call dB env0 reply0) := by
  have h := c7_cast_agree_after_narrowing Nat Nat Bool Bool fInc fpInc frInc
    dA dB env0 info0 ({} : Empty) reply0 rfl rfl rfl
  exact ⟨rfl, rfl, rfl, h.1, h.2.1, h.2.2⟩

/-- C10: wrapping a callable in the tagging wrapper via `wrap` (or `wap`)
changes nothing observable: the wrapped call returns exactly the callable
result with a failure converted into the uniform error and a success
unchanged, for each of the three wrapped entry-point shapes. -/
theorem c10_wrapper_transparent {Q C Msg E : Type} (into : E → Failure)
    (f : DepsMut Q → Env → MessageInfo → Msg → Except E (Response C))
    (g : DepsMut Q → Env → Msg → Except E (Response C))
    (q : Deps Q → Env → Msg → Except E Binary) (deps : DepsMut Q) (di : Deps Q)
    (env : Env) (info : MessageInfo) (m : Msg) :
    (wap Msg f = WrappableFn.wrap Msg f) ∧
    ((WrappableFn.wrap Msg f).callContract into deps env info m =
      Except.mapError into (f deps env info m)) ∧
    (∀ r, (WrappableFn.wrap Msg f).callContract into deps env info m =
      Except.ok r ↔ f deps env info m = Except.ok r) ∧
    (∀ e2, f deps env info m = Except.error e2 →
      (WrappableFn.wrap Msg f).callContract into deps env info m =
        Except.error (into e2)) ∧
    ((WrappableFn.wrap Msg g).callPermissioned into deps env m =
      Except.mapError into (g deps env m)) ∧
    (∀ r, (WrappableFn.wrap Msg g).callPermissioned into deps env m =
      Except.ok r ↔ g deps env m = Except.ok r) ∧
    (∀ e2, g deps env m = Except.error e2 →
      (WrappableFn.wrap Msg g).callPermissioned into deps env m =
        Except.error (into e2)) ∧
    ((WrappableFn.wrap Msg q).callQuery into di env m =
      Except.mapError into (q di env m)) ∧
    (∀ r, (WrappableFn.wrap Msg q).callQuery into di env m =
      Except.ok r ↔ q di env m = Except.ok r) ∧
    (∀ e2, q di env m = Except.error e2 →
      (WrappableFn.wrap Msg q).callQuery into di env m =
        Except.error (into e2)) := by
  refine ⟨rfl, rfl, fun r => ?_, fun e2 he => ?_, rfl, fun r => ?_, fun e2 he => ?_,
    rfl, fun r => ?_, fun e2 he => ?_⟩
  · cases hx : f deps env info m <;>
      simp [WrappableFn.wrap, FnWrapper.callContract, hx, Except.mapError]
  · simp [WrappableFn.wrap, FnWrapper.callContract, he, Except.mapError]
  · cases hx : g deps env m <;>
      simp [WrappableFn.wrap, FnWrapper.callPermissioned, hx, Except.mapError]
  · simp [WrappableFn.wrap, FnWrapper.callPermissioned, he, Except.mapError]
  · cases hx : q di env m <;>
      simp [WrappableFn.wrap, FnWrapper.callQuery, hx, Except.mapError]
  · simp [WrappableFn.wrap, FnWrapper.callQuery, he, Except.mapError]

/-- Concrete fixture: an execute-shaped callable that always fails. -/
def fFail : DepsMut Unit → Env → MessageInfo → Empty → Except String (Response Unit) :=
  fun _ _ _ _ => Except.error "boom"

/-- Concrete fixture: a sudo-shaped callable that always fails. -/
def gFail : DepsMut Unit → Env → Empty → Except String (Response Unit) :=
  fun _ _ _ => Except.error "boom"

/-- Concrete fixture: a query-shaped callable that always fails. -/
def qFail : Deps Unit → Env → Empty → Except String Binary :=
  fun _ _ _ => Except.error "boom"

/-- Witness for C10 at a concrete failing callable. -/
theorem c10_witness :
    fFail dm0 env0 info0 {} = Except.error "boom" ∧
    (WrappableFn.wrap Empty fFail).callContract Failure.logic dm0 env0 info0 {} =
      Except.error (Failure.logic "boom") :=
  ⟨rfl,
   (c10_wrapper_transparent Failure.logic fFail gFail qFail dm0 dI0 env0 info0
     ({} : Empty)).2.2.2.1 "boom" rfl⟩

end CwMt
